import Mathlib

/-
Verification of the Windows threading wrapper (`NvThreadWin.h`) of
NVIDIAGameWorks/GraphicsSamples: a shallow embedding of the thread, mutex,
condition-variable and thread-manager classes declared in
`src/extensions/src/NvAppBase/win/NvThreadWin.h`, together with proofs of the
behavioural properties stated in the specification.

The repository snapshot contains only the header: every method body lives in
`NvThreadWin.cpp`, which is not part of the snapshot. Definitions below are
therefore modelled from the specification and from the contracts written in
the header's doc comments, as noted on each definition.
-/

/-- Error taxonomy of the threading layer. Modelled from the spec: the spec's
error-handling design distinguishes usage errors (precondition violations such
as disallowed constructors or unlock-without-lock), invalid-argument and
allocation failures at thread construction, the LimitExceeded condition of
recursive mutexes, and UnsupportedOperation for queries with no native
equivalent; the header only declares the `NvThreadExceptionWin` carrier
class. -/
inductive NvError where
  | usageError
  | invalidArgument
  | allocationError
  | limitExceeded
  | unsupported
deriving DecidableEq, Repr

/-- Highest abstract thread priority. Modelled from the spec: the abstract
scale is the closed integer range from `HighestThreadPriority` to
`LowestThreadPriority` declared in `NvThread.h` (not in the snapshot); the
exact endpoints are an implementation choice that must be stable, and the
header points at the nn::os convention in which the highest priority is the
numerically smallest value. -/
def HighestThreadPriority : Int := 0

/-- Lowest abstract thread priority (numerically largest value of the
abstract scale). Modelled from the spec, see `HighestThreadPriority`. -/
def LowestThreadPriority : Int := 31

/-- Clamp an abstract priority into the valid range. Modelled from the spec:
the priority translator must clamp rather than fail on out-of-range input. -/
def clampNNPriority (nnPriority : Int) : Int :=
  if nnPriority < HighestThreadPriority then HighestThreadPriority
  else if LowestThreadPriority < nnPriority then LowestThreadPriority
  else nnPriority

/-- Bucket a clamped abstract priority into a Windows thread priority level
(the WinBase.h constants THREAD_PRIORITY_TIME_CRITICAL = 15, HIGHEST = 2,
ABOVE_NORMAL = 1, NORMAL = 0, BELOW_NORMAL = -1, LOWEST = -2, IDLE = -15;
on the Windows scale a larger value is a higher priority). Modelled from the
spec: the table of `NvThreadWin::getNNToWinPriority` is in `NvThreadWin.cpp`,
not in the snapshot; the spec requires the nearest valid native level,
monotonically. -/
def winPriorityLevel (p : Int) : Int :=
  if p = 0 then 15
  else if p ≤ 5 then 2
  else if p ≤ 10 then 1
  else if p ≤ 16 then 0
  else if p ≤ 21 then -1
  else if p ≤ 26 then -2
  else -15

/-- `NvThreadWin::getNNToWinPriority` (NvThreadWin.h line 172). Modelled from
the spec: maps the abstract (nn::os style) priority range to the corresponding
Windows thread priority, clamping out-of-range input to the nearest extreme. -/
def getNNToWinPriority (nnPriority : Int) : Int :=
  winPriorityLevel (clampNNPriority nnPriority)

theorem clampNNPriority_mono {p q : Int} (h : p ≤ q) :
    clampNNPriority p ≤ clampNNPriority q := by
  unfold clampNNPriority HighestThreadPriority LowestThreadPriority
  split_ifs <;> omega

theorem clampNNPriority_nonneg (p : Int) : 0 ≤ clampNNPriority p := by
  unfold clampNNPriority HighestThreadPriority LowestThreadPriority
  split_ifs <;> omega

theorem winPriorityLevel_antitone {a b : Int} (ha : 0 ≤ a) (h : a ≤ b) :
    winPriorityLevel b ≤ winPriorityLevel a := by
  unfold winPriorityLevel
  split_ifs <;> omega

/-- C4: the priority translation `getNNToWinPriority` from the abstract scale
(where a numerically smaller value is a higher priority) to the Windows scale
(where a numerically larger value is a higher priority) is monotonic — a
higher abstract priority maps to a higher or equal native priority — and
out-of-range inputs clamp to the image of the nearest extreme of the scale
instead of failing. -/
theorem getNNToWinPriority_monotone_clamp :
    (∀ p q : Int, p ≤ q → getNNToWinPriority q ≤ getNNToWinPriority p) ∧
    (∀ p : Int, p < HighestThreadPriority →
      getNNToWinPriority p = getNNToWinPriority HighestThreadPriority) ∧
    (∀ p : Int, LowestThreadPriority < p →
      getNNToWinPriority p = getNNToWinPriority LowestThreadPriority) := by
  refine ⟨fun p q h => ?_, fun p h => ?_, fun p h => ?_⟩
  · exact winPriorityLevel_antitone (clampNNPriority_nonneg p) (clampNNPriority_mono h)
  · unfold getNNToWinPriority clampNNPriority HighestThreadPriority LowestThreadPriority at *
    split_ifs <;> omega
  · unfold getNNToWinPriority clampNNPriority HighestThreadPriority LowestThreadPriority at *
    split_ifs <;> omega

/-- C4 witness: concrete monotonicity and clamping instances, obtained from
`getNNToWinPriority_monotone_clamp` at priorities 3 ≤ 20, -7 (above the
highest) and 99 (below the lowest). -/
theorem getNNToWinPriority_monotone_clamp_witness :
    getNNToWinPriority 20 ≤ getNNToWinPriority 3 ∧
    getNNToWinPriority (-7) = getNNToWinPriority HighestThreadPriority ∧
    getNNToWinPriority 99 = getNNToWinPriority LowestThreadPriority :=
  ⟨getNNToWinPriority_monotone_clamp.1 3 20 (by decide),
   getNNToWinPriority_monotone_clamp.2.1 (-7) (by decide),
   getNNToWinPriority_monotone_clamp.2.2 99 (by decide)⟩

/-- `NvMutexWin` (NvThreadWin.h lines 198-283). The header stores the flag
`mRecursive`, the maximum ownership level `mLockLevel`, and a Windows
CRITICAL_SECTION; `owningThread` and `recursionCount` model the
OwningThread and RecursionCount state of that critical section (the mutex is
free exactly when `owningThread` is `none`, i.e. `recursionCount` is 0). -/
structure NvMutexWin where
  mRecursive : Bool
  mLockLevel : Nat
  owningThread : Option Nat
  recursionCount : Nat
deriving DecidableEq, Repr

/-- The parameterised `NvMutexWin` constructor (NvThreadWin.h line 218):
creates an unowned mutex with the given recursion flag and maximum lock
level. Modelled from the spec: the body is in `NvThreadWin.cpp`, not in the
snapshot. -/
def NvMutexWin.create (recursive : Bool) (lockLevel : Nat) : NvMutexWin :=
  ⟨recursive, lockLevel, none, 0⟩

/-- Outcome of a `lockMutex` call by one thread: the caller acquires the
mutex (with the updated mutex state), blocks because another thread owns the
native lock, or the call fails with an error. -/
inductive LockResult where
  | acquired (m : NvMutexWin)
  | blocked
  | err (e : NvError)
deriving DecidableEq, Repr

/-- `NvMutexWin::lockMutex` (NvThreadWin.h line 232), as observed by the
calling thread `callerTid`. Modelled from the spec: the body is in
`NvThreadWin.cpp`, not in the snapshot. A free mutex is acquired at lock
level 1; a recursive mutex already held by the caller has its lock level
incremented, failing with LimitExceeded when that would exceed
`mLockLevel`; re-locking a held non-recursive mutex is a usage error; a
mutex held by another thread blocks the caller. -/
def NvMutexWin.lockMutex (m : NvMutexWin) (callerTid : Nat) : LockResult :=
  match m.owningThread with
  | none => .acquired { m with owningThread := some callerTid, recursionCount := 1 }
  | some owner =>
    if owner = callerTid then
      if m.mRecursive then
        if m.recursionCount < m.mLockLevel then
          .acquired { m with recursionCount := m.recursionCount + 1 }
        else .err .limitExceeded
      else .err .usageError
    else .blocked

/-- `NvMutexWin::unlockMutex` (NvThreadWin.h line 247). Modelled from the
spec and the header doc (lines 241-246): decrements the lock level of a
mutex held by the caller, releasing the native lock (owner becomes free)
only when the level returns to 0; unlocking a mutex the caller does not hold
is a usage error. -/
def NvMutexWin.unlockMutex (m : NvMutexWin) (callerTid : Nat) :
    Except NvError NvMutexWin :=
  match m.owningThread with
  | some owner =>
    if owner = callerTid then
      if m.recursionCount ≤ 1 then
        .ok { m with owningThread := none, recursionCount := 0 }
      else .ok { m with recursionCount := m.recursionCount - 1 }
    else .error .usageError
  | none => .error .usageError

/-- `NvMutexWin::isMutexLockedByCurrentThread` (NvThreadWin.h lines 249-254).
The header doc comment states the behaviour in full: the method does NOT work
on Windows (there is no Windows API for this use-case) and simply throws an
exception; per the spec's taxonomy this is the UnsupportedOperation signal. -/
def NvMutexWin.isMutexLockedByCurrentThread (_m : NvMutexWin) :
    Except NvError Bool :=
  .error .unsupported

/-- Iterate `lockMutex` by `callerTid`, requiring every call to acquire. -/
def lockN (callerTid : Nat) : Nat → NvMutexWin → Option NvMutexWin
  | 0, m => some m
  | k + 1, m =>
    match m.lockMutex callerTid with
    | .acquired next => lockN callerTid k next
    | _ => none

/-- Iterate `unlockMutex` by `callerTid`, requiring every call to succeed. -/
def unlockN (callerTid : Nat) : Nat → NvMutexWin → Option NvMutexWin
  | 0, m => some m
  | k + 1, m =>
    match m.unlockMutex callerTid with
    | .ok next => unlockN callerTid k next
    | .error _ => none

theorem lockN_held (A N : Nat) :
    ∀ k i, 1 ≤ i → i + k ≤ N →
      lockN A k ⟨true, N, some A, i⟩ = some ⟨true, N, some A, i + k⟩ := by
  intro k
  induction k with
  | zero => intro i _ _; simp [lockN]
  | succ j ih =>
    intro i hi hk
    have hlt : i < N := by omega
    have hstep : (⟨true, N, some A, i⟩ : NvMutexWin).lockMutex A =
        .acquired ⟨true, N, some A, i + 1⟩ := by
      simp [NvMutexWin.lockMutex, hlt]
    have := ih (i + 1) (by omega) (by omega)
    simp only [lockN, hstep]
    rw [this]
    congr 2
    omega

theorem unlockN_held (A N : Nat) :
    ∀ k i, k < i →
      unlockN A k ⟨true, N, some A, i⟩ = some ⟨true, N, some A, i - k⟩ := by
  intro k
  induction k with
  | zero => intro i _; simp [unlockN]
  | succ j ih =>
    intro i hi
    have h2 : ¬ i ≤ 1 := by omega
    have hstep : (⟨true, N, some A, i⟩ : NvMutexWin).unlockMutex A =
        .ok ⟨true, N, some A, i - 1⟩ := by
      simp [NvMutexWin.unlockMutex, h2]
    have := ih (i - 1) (by omega)
    simp only [unlockN, hstep]
    rw [this]
    congr 2
    omega

theorem unlockN_full (A N : Nat) :
    ∀ i, 1 ≤ i →
      unlockN A i ⟨true, N, some A, i⟩ = some (NvMutexWin.create true N) := by
  intro i
  induction i with
  | zero => omega
  | succ j ih =>
    intro _
    match j, ih with
    | 0, _ =>
      simp [unlockN, NvMutexWin.unlockMutex, NvMutexWin.create]
    | j + 1, ih =>
      have h2 : ¬ j + 1 + 1 ≤ 1 := by omega
      have hstep : (⟨true, N, some A, j + 2⟩ : NvMutexWin).unlockMutex A =
          .ok ⟨true, N, some A, j + 1⟩ := by
        simp [NvMutexWin.unlockMutex, h2]
      simp only [unlockN, hstep]
      exact ih (by omega)

/-- C2: for a recursive mutex with maximum lock level N (N ≥ 1) held by
thread A: up to N nested `lockMutex` calls by A succeed; the (N+1)th fails
with the LimitExceeded condition; after k < N matching `unlockMutex` calls
the native lock is still held by A so another thread B blocks; and after
exactly N matching `unlockMutex` calls the native lock is released (the
mutex returns to its freshly created state) and B's `lockMutex` acquires. -/
theorem recursiveMutex_lockLevel (N A B : Nat) (hN : 1 ≤ N) (hAB : A ≠ B) :
    (∀ k, 1 ≤ k → k ≤ N →
      lockN A k (NvMutexWin.create true N) = some ⟨true, N, some A, k⟩) ∧
    ((⟨true, N, some A, N⟩ : NvMutexWin).lockMutex A = .err .limitExceeded) ∧
    (∀ k, k < N →
      unlockN A k ⟨true, N, some A, N⟩ = some ⟨true, N, some A, N - k⟩ ∧
      (⟨true, N, some A, N - k⟩ : NvMutexWin).lockMutex B = .blocked) ∧
    (unlockN A N ⟨true, N, some A, N⟩ = some (NvMutexWin.create true N) ∧
      (NvMutexWin.create true N).lockMutex B =
        .acquired ⟨true, N, some B, 1⟩) := by
  refine ⟨fun k hk1 hkN => ?_, ?_, fun k hk => ⟨?_, ?_⟩, ?_, ?_⟩
  · match k, hk1 with
    | j + 1, _ =>
      have hfirst : (NvMutexWin.create true N).lockMutex A =
          .acquired ⟨true, N, some A, 1⟩ := by
        simp [NvMutexWin.create, NvMutexWin.lockMutex]
      have := lockN_held A N j 1 (by omega) (by omega)
      simp only [lockN, hfirst]
      rw [this]
      congr 2
      omega
  · simp [NvMutexWin.lockMutex]
  · exact unlockN_held A N k N hk
  · simp [NvMutexWin.lockMutex, hAB]
  · exact unlockN_full A N N hN
  · simp [NvMutexWin.create, NvMutexWin.lockMutex]

/-- C2 witness: the limit behaviour of `recursiveMutex_lockLevel` evaluated
for a recursive mutex of maximum lock level 2, owner thread 0 and contending
thread 1: two nested locks reach level 2, a third lock fails with
LimitExceeded, one unlock leaves thread 1 blocked, two unlocks free the
mutex and let thread 1 acquire it. -/
theorem recursiveMutex_lockLevel_witness :
    lockN 0 2 (NvMutexWin.create true 2) = some ⟨true, 2, some 0, 2⟩ ∧
    (⟨true, 2, some 0, 2⟩ : NvMutexWin).lockMutex 0 = .err .limitExceeded ∧
    unlockN 0 1 ⟨true, 2, some 0, 2⟩ = some ⟨true, 2, some 0, 1⟩ ∧
    (⟨true, 2, some 0, 1⟩ : NvMutexWin).lockMutex 1 = .blocked ∧
    unlockN 0 2 ⟨true, 2, some 0, 2⟩ = some (NvMutexWin.create true 2) ∧
    (NvMutexWin.create true 2).lockMutex 1 = .acquired ⟨true, 2, some 1, 1⟩ := by
  obtain ⟨h1, h2, h3, h4, h5⟩ :=
    recursiveMutex_lockLevel 2 0 1 (by decide) (by decide)
  exact ⟨h1 2 (by decide) (by decide), h2, (h3 1 (by decide)).1,
    (h3 1 (by decide)).2, h4, h5⟩

/-- C8: on Windows there is no native primitive for querying mutex ownership,
so every call to `isMutexLockedByCurrentThread`, whatever the mutex state,
fails with the Unsupported-operation signal and never returns a boolean
answer. -/
theorem isMutexLockedByCurrentThread_unsupported :
    ∀ (m : NvMutexWin),
      m.isMutexLockedByCurrentThread = .error .unsupported ∧
      ∀ (b : Bool), m.isMutexLockedByCurrentThread ≠ .ok b := by
  intro m
  exact ⟨rfl, fun b h => by simp [NvMutexWin.isMutexLockedByCurrentThread] at h⟩

/-- `NvConditionVariableWin` (NvThreadWin.h lines 286-356): wraps one Windows
CONDITION_VARIABLE and carries no independent state of its own beyond it
(the native object is opaque here). -/
structure NvConditionVariableWin where
  mConditionVariable : Unit
deriving DecidableEq, Repr

/-- Status returned by a timed condition-variable wait, distinguishing the
woken/signal path from a timeout. Modelled from the spec: the
`NvConditionVariableStatus` enumeration is declared in `NvThread.h`, which is
not in the snapshot. -/
inductive NvConditionVariableStatus where
  | noTimeout
  | timedOut
deriving DecidableEq, Repr

/-- `NvConditionVariableWin::baseWaitConditionVariable` (NvThreadWin.h line
348), as observed by the calling thread `callerTid`. Modelled from the spec:
the body (a SleepConditionVariableCS call) is in `NvThreadWin.cpp`, not in
the snapshot. The caller must hold `mutex` (otherwise a usage error); the
native call releases the mutex while blocked and re-acquires it before
returning, so the mutex state handed back equals the state at entry — held
by the caller. `pending` states whether a matching signal/broadcast is
pending for this waiter when the call is made; `wake` is the oracle for the
nondeterministic outcome of a blocking wait (a signal/broadcast arriving
during the wait, or a spurious wakeup). With a zero timeout and no pending
signal the call cannot be awakened and reports a timeout at once; the
returned boolean is whether the thread was awakened before the timeout. -/
def NvConditionVariableWin.baseWaitConditionVariable
    (_cv : NvConditionVariableWin) (callerTid : Nat) (mutex : NvMutexWin)
    (timeout : Int) (pending wake : Bool) :
    Except NvError (Bool × NvMutexWin) :=
  if mutex.owningThread = some callerTid then
    .ok (pending || (timeout != 0 && wake), mutex)
  else .error .usageError

/-- Sentinel timeout used by the untimed wait (the Windows INFINITE wait):
any nonzero value of the model's timeout channel, meaning the wait may block
until awakened. -/
def infiniteTimeout : Int := -1

/-- `NvConditionVariableWin::waitConditionVariable` (NvThreadWin.h line 321).
Modelled from the spec: waits on the condition variable with an unbounded
(INFINITE) timeout via `baseWaitConditionVariable`, unlocking the mutex
while the thread sleeps and re-acquiring it once it wakes up; the wake
reason (signal, broadcast or spurious wakeup) is not reported. -/
def NvConditionVariableWin.waitConditionVariable
    (cv : NvConditionVariableWin) (callerTid : Nat) (mutex : NvMutexWin)
    (pending wake : Bool) : Except NvError NvMutexWin :=
  match cv.baseWaitConditionVariable callerTid mutex infiniteTimeout pending wake with
  | .error e => .error e
  | .ok (_, m) => .ok m

/-- `NvConditionVariableWin::timedWaitConditionVariable` (NvThreadWin.h lines
332-333). Modelled from the spec: identical to the untimed wait but bounds
the blocking time by `timeout` nanoseconds; returns the status telling a
successful wakeup apart from a timeout, with the mutex re-held either way. -/
def NvConditionVariableWin.timedWaitConditionVariable
    (cv : NvConditionVariableWin) (callerTid : Nat) (mutex : NvMutexWin)
    (timeout : Int) (pending wake : Bool) :
    Except NvError (NvConditionVariableStatus × NvMutexWin) :=
  match cv.baseWaitConditionVariable callerTid mutex timeout pending wake with
  | .error e => .error e
  | .ok (true, m) => .ok (.noTimeout, m)
  | .ok (false, m) => .ok (.timedOut, m)

/-- C3: every `waitConditionVariable` or `timedWaitConditionVariable` call
issued with the mutex held by the calling thread returns with that same
mutex state — still owned by the caller — whatever the outcome (pending
signal/broadcast, wake during the wait, spurious wakeup, or timeout): the
mutex is re-acquired by the calling thread before the call returns. -/
theorem conditionVariable_wait_reacquires_mutex
    (cv : NvConditionVariableWin) (callerTid : Nat) (mutex : NvMutexWin)
    (timeout : Int) (pending wake : Bool)
    (held : mutex.owningThread = some callerTid) :
    cv.waitConditionVariable callerTid mutex pending wake = .ok mutex ∧
    (∃ status, cv.timedWaitConditionVariable callerTid mutex timeout pending wake =
      .ok (status, mutex)) := by
  constructor
  · simp [NvConditionVariableWin.waitConditionVariable,
      NvConditionVariableWin.baseWaitConditionVariable, held]
  · refine ⟨if pending || (timeout != 0 && wake) then .noTimeout else .timedOut, ?_⟩
    simp only [NvConditionVariableWin.timedWaitConditionVariable,
      NvConditionVariableWin.baseWaitConditionVariable, held, if_pos]
    cases h : pending || (timeout != 0 && wake) <;> simp [h]

/-- C3 witness: `conditionVariable_wait_reacquires_mutex` evaluated for
thread 0 holding a non-recursive mutex at level 1, with a 5-nanosecond
timeout, no pending signal and a spurious wake: both waits return with the
mutex still owned by thread 0. -/
theorem conditionVariable_wait_reacquires_mutex_witness :
    NvConditionVariableWin.waitConditionVariable ⟨()⟩ 0 ⟨false, 1, some 0, 1⟩
      false true = .ok ⟨false, 1, some 0, 1⟩ ∧
    (∃ status, NvConditionVariableWin.timedWaitConditionVariable ⟨()⟩ 0
      ⟨false, 1, some 0, 1⟩ 5 false true = .ok (status, ⟨false, 1, some 0, 1⟩)) :=
  conditionVariable_wait_reacquires_mutex ⟨()⟩ 0 ⟨false, 1, some 0, 1⟩ 5
    false true (by decide)

/-- C7: a `timedWaitConditionVariable` call with a timeout of zero
nanoseconds, made with the mutex held and no pending signal, is a valid
non-blocking poll: whatever the wake oracle says, it returns the timeout
status (with the mutex still held) rather than an error. -/
theorem timedWait_zero_poll (cv : NvConditionVariableWin) (callerTid : Nat)
    (mutex : NvMutexWin) (wake : Bool)
    (held : mutex.owningThread = some callerTid) :
    cv.timedWaitConditionVariable callerTid mutex 0 false wake =
      .ok (.timedOut, mutex) := by
  simp [NvConditionVariableWin.timedWaitConditionVariable,
    NvConditionVariableWin.baseWaitConditionVariable, held]

/-- C7 witness: `timedWait_zero_poll` evaluated for thread 0 holding a
non-recursive mutex, with a wake oracle of true: the zero-timeout poll with
no pending signal still reports a timeout immediately. -/
theorem timedWait_zero_poll_witness :
    NvConditionVariableWin.timedWaitConditionVariable ⟨()⟩ 0
      ⟨false, 1, some 0, 1⟩ 0 false true =
      .ok (.timedOut, ⟨false, 1, some 0, 1⟩) :=
  timedWait_zero_poll ⟨()⟩ 0 ⟨false, 1, some 0, 1⟩ true (by decide)

/-- Value held in a thread's single name slot (the `mName` member, a single
`const char*` at NvThreadWin.h line 186): either nothing has been set (the
sentinel unnamed state), or an owned copy installed by `setThreadName` (the
thread allocated the copy itself, so only the copied contents matter), or a
borrowed pointer installed by `setThreadNamePointer` (the caller's pointer,
modelled as an address, stored as-is with no copy). -/
inductive NameVal where
  | unnamed
  | owned (copy : String)
  | borrowed (p : Nat)
deriving DecidableEq, Repr

/-- `NVTHREAD_STACK_ALIGN`: the alignment required of caller-supplied stack
memory, checked at thread construction. Modelled from the spec: the constant
is declared in `NvThread.h`, not in the snapshot; 4096 is the nn::os page
alignment the header's doc refers to. -/
def NVTHREAD_STACK_ALIGN : Nat := 4096

/-- Minimum stack size accepted at thread construction. Modelled from the
spec: construction fails with an AllocationError-class condition when the
stack is too small for the host's minimum. -/
def NVTHREAD_STACK_MIN : Nat := 4096

/-- `NvThreadWin` (NvThreadWin.h lines 51-191). The header stores the native
handle `mThreadHnd`, the native id `mThreadId`, the name slot `mName` and the
original priority `mPriority`; `mCurrentPriority` models the current priority
of the native thread (in the real code it lives in the OS thread object and
is read back through the priority translator), as set by the last
`changeThreadPriority` call, initially the construction priority. -/
structure NvThreadWin where
  mThreadHnd : Nat
  mThreadId : Nat
  mName : NameVal
  mPriority : Int
  mCurrentPriority : Int
deriving DecidableEq, Repr

/-- The parameterised `NvThreadWin` constructor (NvThreadWin.h lines 77-78).
Modelled from the spec: the body is in `NvThreadWin.cpp`, not in the
snapshot. Construction fails with InvalidArgument when the priority is
outside the abstract range and with AllocationError when the caller-supplied
stack is misaligned or below the host minimum; otherwise the thread starts
unnamed with both its original and current priority equal to the requested
one. `threadId` stands for the native identifier the OS assigns to the
(suspended) thread at creation; the function, argument and stack pointers are
handed to the native call and not stored as members. -/
def NvThreadWin.create (threadId function argument stack : Nat)
    (stackSize : Nat) (priority : Int) : Except NvError NvThreadWin :=
  if priority < HighestThreadPriority ∨ LowestThreadPriority < priority then
    .error .invalidArgument
  else if stackSize % NVTHREAD_STACK_ALIGN ≠ 0 ∨ stackSize < NVTHREAD_STACK_MIN then
    .error .allocationError
  else
    .ok ⟨threadId, threadId, .unnamed, priority, priority⟩

/-- `NvThreadWin::changeThreadPriority` (NvThreadWin.h line 103). Modelled
from the spec: atomically swaps the current priority for the new one and
returns the previous value. -/
def NvThreadWin.changeThreadPriority (t : NvThreadWin) (priority : Int) :
    Int × NvThreadWin :=
  (t.mCurrentPriority, { t with mCurrentPriority := priority })

/-- `NvThreadWin::getThreadPriority` (NvThreadWin.h line 109): returns the
priority assigned at construction (the header doc calls it the original
priority), which is what `mPriority` stores. -/
def NvThreadWin.getThreadPriority (t : NvThreadWin) : Int :=
  t.mPriority

/-- `NvThreadWin::getThreadCurrentPriority` (NvThreadWin.h line 116): returns
the current priority as determined by the last `changeThreadPriority` call,
if any, otherwise by the constructor. -/
def NvThreadWin.getThreadCurrentPriority (t : NvThreadWin) : Int :=
  t.mCurrentPriority

/-- `NvThreadWin::setThreadName` (NvThreadWin.h line 122): installs an owned
copy of the given name in the single name slot (the caller's pointer does
not need to be kept), releasing whatever the slot held before. -/
def NvThreadWin.setThreadName (t : NvThreadWin) (name : String) : NvThreadWin :=
  { t with mName := .owned name }

/-- `NvThreadWin::setThreadNamePointer` (NvThreadWin.h line 128): stores the
caller's pointer as-is in the single name slot (the pointer must be kept
alive by the caller), replacing whatever the slot held before. -/
def NvThreadWin.setThreadNamePointer (t : NvThreadWin) (name : Nat) : NvThreadWin :=
  { t with mName := .borrowed name }

/-- `NvThreadWin::getThreadNamePointer` (NvThreadWin.h line 134): returns
the current contents of the name slot. -/
def NvThreadWin.getThreadNamePointer (t : NvThreadWin) : NameVal :=
  t.mName

/-- Apply a list of `changeThreadPriority` calls in order, keeping only the
resulting thread state. -/
def applyPriorityChanges (t : NvThreadWin) (ps : List Int) : NvThreadWin :=
  ps.foldl (fun acc q => (acc.changeThreadPriority q).2) t

/-- One call to either name setter: the copying `setThreadName` or the
borrowing `setThreadNamePointer`. -/
inductive NameSet where
  | byCopy (s : String)
  | byPtr (p : Nat)
deriving DecidableEq, Repr

/-- Apply one name-setter call to a thread. -/
def applyNameSet (t : NvThreadWin) : NameSet → NvThreadWin
  | .byCopy s => t.setThreadName s
  | .byPtr p => t.setThreadNamePointer p

/-- Name-slot contents a single setter call installs. -/
def nameSetVal : NameSet → NameVal
  | .byCopy s => .owned s
  | .byPtr p => .borrowed p

/-- Apply a list of name-setter calls in order. -/
def applyNameSets (t : NvThreadWin) (calls : List NameSet) : NvThreadWin :=
  calls.foldl applyNameSet t

/-- C5: for every thread and every valid priority p, `changeThreadPriority p`
returns the priority that was current immediately before the call, and
`getThreadCurrentPriority` on the resulting thread returns p. -/
theorem changeThreadPriority_roundTrip (t : NvThreadWin) (p : Int)
    (hp1 : HighestThreadPriority ≤ p) (hp2 : p ≤ LowestThreadPriority) :
    (t.changeThreadPriority p).1 = t.getThreadCurrentPriority ∧
    ((t.changeThreadPriority p).2).getThreadCurrentPriority = p := by
  exact ⟨rfl, rfl⟩

/-- C5 witness: `changeThreadPriority_roundTrip` for a thread whose current
priority is 16 and the valid priority 5. -/
theorem changeThreadPriority_roundTrip_witness :
    ((⟨0, 0, .unnamed, 16, 16⟩ : NvThreadWin).changeThreadPriority 5).1 = 16 ∧
    (((⟨0, 0, .unnamed, 16, 16⟩ : NvThreadWin).changeThreadPriority 5).2).getThreadCurrentPriority = 5 :=
  changeThreadPriority_roundTrip ⟨0, 0, .unnamed, 16, 16⟩ 5 (by decide) (by decide)

theorem applyPriorityChanges_mPriority (ps : List Int) :
    ∀ t : NvThreadWin, (applyPriorityChanges t ps).mPriority = t.mPriority := by
  induction ps with
  | nil => intro t; rfl
  | cons q rest ih =>
    intro t
    simpa [applyPriorityChanges, NvThreadWin.changeThreadPriority,
      List.foldl_cons] using ih { t with mCurrentPriority := q }

/-- C6: the original priority reported by `getThreadPriority` is always the
priority passed at construction, unchanged by any sequence of intervening
`changeThreadPriority` calls. -/
theorem getThreadPriority_immutable (threadId function argument stack : Nat)
    (stackSize : Nat) (priority : Int) (t : NvThreadWin)
    (hcreate : NvThreadWin.create threadId function argument stack stackSize
      priority = .ok t) :
    ∀ ps : List Int, (applyPriorityChanges t ps).getThreadPriority = priority := by
  intro ps
  have hp : t.mPriority = priority := by
    unfold NvThreadWin.create at hcreate
    split_ifs at hcreate with h1 h2
    injection hcreate with h
    subst h
    rfl
  simpa [NvThreadWin.getThreadPriority, hp] using
    applyPriorityChanges_mPriority ps t

/-- C6 witness: a thread constructed with priority 10 and an aligned
4096-byte stack still reports original priority 10 after the priority
changes 3 and 27. -/
theorem getThreadPriority_immutable_witness :
    (applyPriorityChanges ⟨7, 7, .unnamed, 10, 10⟩ [3, 27]).getThreadPriority = 10 :=
  getThreadPriority_immutable 7 1 2 3 4096 10 ⟨7, 7, .unnamed, 10, 10⟩
    (by rfl) [3, 27]

/-- C10: the thread's single name slot is shared by both setters: after
`setThreadNamePointer p` the getter returns exactly the borrowed pointer p
(no copy is made); each setter replaces what the other installed; and after
any sequence of setter calls ending in call c, `getThreadNamePointer`
reflects exactly c — the most recent setter call of either kind. -/
theorem threadName_slot_lastSetterWins :
    (∀ (t : NvThreadWin) (p : Nat),
      (t.setThreadNamePointer p).getThreadNamePointer = .borrowed p) ∧
    (∀ (t : NvThreadWin) (s : String) (p : Nat),
      ((t.setThreadName s).setThreadNamePointer p).getThreadNamePointer = .borrowed p ∧
      ((t.setThreadNamePointer p).setThreadName s).getThreadNamePointer = .owned s) ∧
    (∀ (t : NvThreadWin) (calls : List NameSet) (c : NameSet),
      (applyNameSets t (calls ++ [c])).getThreadNamePointer = nameSetVal c) := by
  refine ⟨fun t p => rfl, fun t s p => ⟨rfl, rfl⟩, fun t calls c => ?_⟩
  rw [applyNameSets, List.foldl_append]
  cases c <;> rfl

/-- `NvThreadWin::NvThreadWin(void)` (NvThreadWin.h lines 55-57). The header
doc states the contract: do NOT use, overwritten for safety, it should throw
an exception; per the spec this is a usage error that never produces an
object. -/
def NvThreadWin.defaultCtor : Except NvError NvThreadWin :=
  .error .usageError

/-- `NvThreadWin::NvThreadWin(const NvThread&)` (NvThreadWin.h lines 59-62),
the copy constructor: do NOT use, it should throw an exception. -/
def NvThreadWin.copyCtor (_obj : NvThreadWin) : Except NvError NvThreadWin :=
  .error .usageError

/-- `NvMutexWin::NvMutexWin(void)` (NvThreadWin.h lines 202-204): do NOT
use, overwritten for safety, it should throw an exception. -/
def NvMutexWin.defaultCtor : Except NvError NvMutexWin :=
  .error .usageError

/-- `NvMutexWin::NvMutexWin(const NvMutex&)` (NvThreadWin.h lines 206-209),
the copy constructor: do NOT use, it should throw an exception. -/
def NvMutexWin.copyCtor (_obj : NvMutexWin) : Except NvError NvMutexWin :=
  .error .usageError

/-- `NvConditionVariableWin::NvConditionVariableWin(void)` (NvThreadWin.h
lines 290-292). Unlike the thread and mutex default constructors, the header
doc designates this default constructor as the ONLY constructor that creates
an instance of a condition variable: it succeeds and yields the wrapped
native condition variable. -/
def NvConditionVariableWin.defaultCtor : Except NvError NvConditionVariableWin :=
  .ok ⟨()⟩

/-- `NvConditionVariableWin::NvConditionVariableWin(const
NvConditionVariableWin&)` (NvThreadWin.h lines 294-297), the copy
constructor: do NOT use, it should throw an exception. -/
def NvConditionVariableWin.copyCtor (_obj : NvConditionVariableWin) :
    Except NvError NvConditionVariableWin :=
  .error .usageError

/-- C9 counterexample: the claim says default construction of a
ConditionVariable always fails with a usage-error signal, but the header
(lines 290-292) designates the default constructor as the only constructor
of a condition variable: it succeeds and produces a usable object. -/
theorem conditionVariable_defaultCtor_succeeds :
    NvConditionVariableWin.defaultCtor ≠ .error .usageError ∧
    NvConditionVariableWin.defaultCtor = .ok ⟨()⟩ :=
  ⟨fun h => by simp [NvConditionVariableWin.defaultCtor] at h, rfl⟩

/-- C9 amended: default and copy construction of a Thread or Mutex, and copy
construction of a ConditionVariable, always fail loudly with the usage-error
signal and never produce an object; default construction of a
ConditionVariable, by contrast, is the type's one legitimate constructor and
succeeds. -/
theorem ctor_usageError_amended (t : NvThreadWin) (m : NvMutexWin)
    (cv : NvConditionVariableWin) :
    NvThreadWin.defaultCtor = .error .usageError ∧
    t.copyCtor = .error .usageError ∧
    NvMutexWin.defaultCtor = .error .usageError ∧
    m.copyCtor = .error .usageError ∧
    cv.copyCtor = .error .usageError ∧
    NvConditionVariableWin.defaultCtor = .ok ⟨()⟩ :=
  ⟨rfl, rfl, rfl, rfl, rfl, rfl⟩

/-- `NvThreadManagerWin` (NvThreadWin.h lines 377-488). The header stores the
registry `mThreadMap` from Windows thread ids (DWORD) to `NvThreadWin*`
pointers; `nextThreadId` models the OS assignment of fresh native thread
identifiers and `nextThreadPtr` models heap allocation of fresh `NvThreadWin`
objects (both strictly increasing, so identifiers and pointers are never
reused while the manager lives). -/
structure NvThreadManagerWin where
  mThreadMap : List (Nat × Nat)
  nextThreadId : Nat
  nextThreadPtr : Nat
deriving DecidableEq, Repr

/-- The manager a freshly constructed `NvThreadManagerWin(void)` represents:
an empty registry. -/
def NvThreadManagerWin.empty : NvThreadManagerWin :=
  ⟨[], 0, 0⟩

/-- Registry lookup over the association list modelling
`std::unordered_map<DWORD, NvThreadWin*>`. -/
def lookupThread : List (Nat × Nat) → Nat → Option Nat
  | [], _ => none
  | (k, v) :: rest, tid => if k = tid then some v else lookupThread rest tid

/-- `NvThreadManagerWin::createThread` (NvThreadWin.h lines 411-412).
Modelled from the spec: the body is in `NvThreadWin.cpp`, not in the
snapshot. Constructs the `NvThreadWin` (validating its arguments), allocates
it at a fresh pointer, and registers the new thread's native identifier in
`mThreadMap` under the registry's critical section before the thread's
function becomes observable, returning the pointer to the caller. -/
def NvThreadManagerWin.createThread (mgr : NvThreadManagerWin)
    (function argument stack : Nat) (stackSize : Nat) (priority : Int) :
    Except NvError (Nat × NvThreadManagerWin) :=
  match NvThreadWin.create mgr.nextThreadId function argument stack stackSize
      priority with
  | .error e => .error e
  | .ok _ =>
    .ok (mgr.nextThreadPtr,
      ⟨(mgr.nextThreadId, mgr.nextThreadPtr) :: mgr.mThreadMap,
        mgr.nextThreadId + 1, mgr.nextThreadPtr + 1⟩)

/-- `NvThreadManagerWin::getCurrentThread` (NvThreadWin.h line 437), called
from the native thread `callerTid`: looks the calling thread's identifier up
in `mThreadMap` and returns the registered `NvThreadWin*`, or null (`none`)
when the calling thread was not created through this manager. -/
def NvThreadManagerWin.getCurrentThread (mgr : NvThreadManagerWin)
    (callerTid : Nat) : Option Nat :=
  lookupThread mgr.mThreadMap callerTid

/-- Well-formedness of the manager: every registered native identifier was
allocated below the next fresh one. Holds for the empty manager and is
preserved by `createThread`. -/
def NvThreadManagerWin.WF (mgr : NvThreadManagerWin) : Prop :=
  ∀ e ∈ mgr.mThreadMap, e.1 < mgr.nextThreadId

/-- Arguments of one `createThread` call. -/
structure CreateArgs where
  function : Nat
  argument : Nat
  stack : Nat
  stackSize : Nat
  priority : Int
deriving DecidableEq, Repr

/-- Run a sequence of further `createThread` calls against the manager,
leaving the manager unchanged on a failed call. -/
def applyCreates (mgr : NvThreadManagerWin) (ops : List CreateArgs) :
    NvThreadManagerWin :=
  ops.foldl
    (fun acc a =>
      match acc.createThread a.function a.argument a.stack a.stackSize a.priority with
      | .ok pair => pair.2
      | .error _ => acc)
    mgr

theorem createThread_ok_shape (mgr : NvThreadManagerWin)
    (function argument stack stackSize : Nat) (priority : Int)
    (ptr : Nat) (next : NvThreadManagerWin)
    (h : mgr.createThread function argument stack stackSize priority =
      .ok (ptr, next)) :
    ptr = mgr.nextThreadPtr ∧
    next = ⟨(mgr.nextThreadId, mgr.nextThreadPtr) :: mgr.mThreadMap,
      mgr.nextThreadId + 1, mgr.nextThreadPtr + 1⟩ := by
  unfold NvThreadManagerWin.createThread at h
  cases hc : NvThreadWin.create mgr.nextThreadId function argument stack
      stackSize priority with
  | error e => rw [hc] at h; exact absurd h (by simp)
  | ok t =>
    rw [hc] at h
    injection h with h
    injection h with h1 h2
    exact ⟨h1.symm, h2.symm⟩

theorem applyCreates_lookup_preserved (ops : List CreateArgs) :
    ∀ mgr : NvThreadManagerWin, mgr.WF → ∀ tid, tid < mgr.nextThreadId →
      (applyCreates mgr ops).getCurrentThread tid = mgr.getCurrentThread tid := by
  induction ops with
  | nil => intro mgr _ tid _; rfl
  | cons a rest ih =>
    intro mgr hwf tid htid
    simp only [applyCreates, List.foldl_cons]
    cases hc : mgr.createThread a.function a.argument a.stack a.stackSize
        a.priority with
    | error e =>
      simpa [applyCreates, hc] using ih mgr hwf tid htid
    | ok pair =>
      obtain ⟨ptr, next⟩ := pair
      obtain ⟨hp, hn⟩ := createThread_ok_shape mgr _ _ _ _ _ _ _ hc
      have hwf' : next.WF := by
        subst hn
        intro e he
        rcases List.mem_cons.mp he with h | h
        · subst h; simp
        · exact Nat.lt_succ_of_lt (hwf e h)
      have hlk : next.getCurrentThread tid = mgr.getCurrentThread tid := by
        subst hn
        have : mgr.nextThreadId ≠ tid := by omega
        simp [NvThreadManagerWin.getCurrentThread, lookupThread, this]
      have htid' : tid < next.nextThreadId := by subst hn; simpa using by omega
      calc (applyCreates next rest).getCurrentThread tid
          = next.getCurrentThread tid := ih next hwf' tid htid'
        _ = mgr.getCurrentThread tid := hlk

theorem lookupThread_not_registered :
    ∀ (l : List (Nat × Nat)) (tid : Nat), (∀ e ∈ l, e.1 ≠ tid) →
      lookupThread l tid = none := by
  intro l
  induction l with
  | nil => intro tid _; rfl
  | cons e rest ih =>
    intro tid h
    have h1 : e.1 ≠ tid := h e (List.mem_cons_self e rest)
    have h2 := ih tid (fun x hx => h x (List.mem_cons_of_mem e hx))
    simp [lookupThread, h1, h2]

/-- C1: when `createThread` on a well-formed manager returns the pointer
`ptr` for a thread whose native identifier is the fresh `mgr.nextThreadId`,
a `getCurrentThread` call made from that native thread — immediately, or
after any further sequence of `createThread` calls while the thread's
function runs — returns exactly `ptr`; and a `getCurrentThread` call from a
native thread that was never registered through the manager returns null
(`none`) rather than failing. -/
theorem createThread_getCurrentThread (mgr : NvThreadManagerWin)
    (function argument stack stackSize : Nat) (priority : Int)
    (ptr : Nat) (next : NvThreadManagerWin) (hwf : mgr.WF)
    (h : mgr.createThread function argument stack stackSize priority =
      .ok (ptr, next)) :
    next.getCurrentThread mgr.nextThreadId = some ptr ∧
    (∀ ops : List CreateArgs,
      (applyCreates next ops).getCurrentThread mgr.nextThreadId = some ptr) ∧
    (∀ (m : NvThreadManagerWin) (tid : Nat), (∀ e ∈ m.mThreadMap, e.1 ≠ tid) →
      m.getCurrentThread tid = none) := by
  obtain ⟨hp, hn⟩ := createThread_ok_shape mgr _ _ _ _ _ _ _ h
  have hbase : next.getCurrentThread mgr.nextThreadId = some ptr := by
    subst hn hp
    simp [NvThreadManagerWin.getCurrentThread, lookupThread]
  refine ⟨hbase, fun ops => ?_, fun m tid hm => ?_⟩
  · have hwf' : next.WF := by
      subst hn
      intro e he
      rcases List.mem_cons.mp he with h' | h'
      · subst h'; simp
      · exact Nat.lt_succ_of_lt (hwf e h')
    have htid : mgr.nextThreadId < next.nextThreadId := by subst hn; simp
    rw [applyCreates_lookup_preserved ops next hwf' mgr.nextThreadId htid]
    exact hbase
  · exact lookupThread_not_registered m.mThreadMap tid hm

/-- C1 witness: `createThread_getCurrentThread` on the empty manager with a
valid thread (priority 16, aligned 4096-byte stack): the new thread gets
pointer 0 under native identifier 0, `getCurrentThread` from identifier 0
returns pointer 0 immediately and after one further `createThread` call, and
`getCurrentThread` from the unregistered identifier 42 returns null. -/
theorem createThread_getCurrentThread_witness :
    (⟨[(0, 0)], 1, 1⟩ : NvThreadManagerWin).getCurrentThread 0 = some 0 ∧
    (applyCreates ⟨[(0, 0)], 1, 1⟩ [⟨0, 0, 0, 4096, 16⟩]).getCurrentThread 0 =
      some 0 ∧
    (⟨[(0, 0)], 1, 1⟩ : NvThreadManagerWin).getCurrentThread 42 = none := by
  obtain ⟨h1, h2, h3⟩ :=
    createThread_getCurrentThread NvThreadManagerWin.empty 0 0 0 4096 16 0
      ⟨[(0, 0)], 1, 1⟩ (by intro e he; simp [NvThreadManagerWin.empty] at he)
      (by rfl)
  exact ⟨h1, h2 [⟨0, 0, 0, 4096, 16⟩],
    h3 ⟨[(0, 0)], 1, 1⟩ 42 (by intro e he; simp at he; simp [he])⟩
